import Mathlib

/-!
A shallow embedding of the cross-process UI command/event bridge of
`lightweight_charts/chart.py`: the renderer-side command loop (class PyWV),
the process supervisor (class WebviewHandler), the controller-side event pump
(Chart.show_async), and the error-parsing helper (PyWV._parse_js_error).

External collaborators (the webview library, the operating system process and
its scheduling, the actual JavaScript engine) are modelled as oracles: the
embedding records which external calls are made and lets an oracle decide
their outcome.  Multiprocessing queues are modelled as FIFO lists with an
optional capacity, matching multiprocessing.Queue; an mp.Queue() created with
no argument has unlimited capacity.
-/

namespace LWC

/-- Characters that are awkward to write literally under the file conventions. -/
def squote : Char := Char.ofNat 39

/-- Double-quote character. -/
def dquote : Char := Char.ofNat 34

/-- Opening curly brace character. -/
def lbrace : Char := Char.ofNat 123

/-- Closing curly brace character. -/
def rbrace : Char := Char.ofNat 125

/-- A one-character string holding a single quote. -/
def sq : String := String.mk [squote]

/-- Python values, as far as this bridge manipulates them: strings, integers,
booleans, None, lists and (string-keyed, insertion-ordered) dicts. -/
inductive PyVal where
  | pyStr (s : String)
  | pyInt (n : Int)
  | pyBool (b : Bool)
  | pyNone
  | pyList (xs : List PyVal)
  | pyDict (xs : List (String × PyVal))

/-- Python list indexing: a negative index counts from the end; an index that
is still out of range raises IndexError (here: none). -/
def pyIndex {α : Type} (l : List α) (i : Int) : Option α :=
  let j : Int := if i < 0 then i + l.length else i
  if 0 ≤ j then l.get? j.toNat else none

/-- A multiprocessing.Queue: FIFO contents plus an optional capacity.
mp.Queue() with no maxsize argument has unlimited capacity (maxsize = none). -/
structure MpQueue (α : Type) where
  items : List α
  maxsize : Option Nat
deriving Repr

/-- A fresh unbounded queue, as built by mp.Queue(). -/
def MpQueue.new {α : Type} : MpQueue α := ⟨[], none⟩

/-- Whether the queue currently has room for one more item. -/
def MpQueue.canAccept {α : Type} (q : MpQueue α) : Bool :=
  match q.maxsize with
  | none => true
  | some m => decide (q.items.length < m)

/-- Enqueue at the tail (the queue is FIFO). -/
def MpQueue.push {α : Type} (q : MpQueue α) (x : α) : MpQueue α :=
  { q with items := q.items ++ [x] }

/-- Outcome of a Python call in this embedding: a normal return, a blocking
call that never returns (no other thread will make room / produce an item in
the sequential model), or a raised exception identified by its class name. -/
inductive PyRes (α : Type) where
  | ok (a : α)
  | blocked
  | exn (e : String)

/-- Queue.put with block=True.  timeoutSeconds = none means wait forever.  In
this single-producer sequential model no consumer runs concurrently, so a put
on a full queue either blocks forever (no timeout) or raises queue.Full once
the timeout elapses. -/
def MpQueue.put {α : Type} (q : MpQueue α) (x : α) (timeoutSeconds : Option ℚ) :
    PyRes (MpQueue α) :=
  if q.canAccept then .ok (q.push x)
  else match timeoutSeconds with
    | none => .blocked
    | some _ => .exn ("queue.Full")

/-! ## Renderer side: class PyWV -/

/-- The argument tuple of a create_window command, as enqueued by the
supervisor: (width, height, x, y, screen, on_top, maximize, title). -/
structure WinCfg where
  width : Int
  height : Int
  x : Option Int
  y : Option Int
  screen : Option Int
  on_top : Bool
  maximize : Bool
  title : String

/-- A command as it sits in the function_call_queue: the Python tuple (i, arg)
where i is the string keyword create_window / start / stop, or an integer
window index; arg is the argument tuple, the debug flag, None, or a payload
string (the literal show / hide, or a script). -/
inductive Cmd where
  | create_window (cfg : WinCfg)
  | start (debug : Bool)
  | stop
  | win (i : Int) (arg : String)

/-- Result of window.evaluate_js(script), decided by the external JavaScript
engine: a returned value, a KeyError raised by the webview backend, or a
JavascriptException carrying the error string. -/
inductive EvalRes where
  | ok (v : PyVal)
  | keyError
  | jsError (errStr : String)

/-- Oracle for the external JavaScript engine: outcome of evaluating a given
script against the window at a given index. -/
def EvalOracle : Type := Int → String → EvalRes

/-- Renderer-process state outside the command queue: the reply queue, the
event queue, the window list (kept as the configs that created the windows;
actual webview.Window objects are external), the liveness flag, and the shared
readiness event, plus a log of native show/hide calls performed. -/
structure RCore where
  return_queue : List PyVal
  emit_queue : List String
  windows : List WinCfg
  is_alive : Bool
  loaded_event : Bool
  native_calls : List (Int × String)

/-- PyWV.create_window: screen-geometry resolution (maximize overriding
width/height from webview.screens) happens against the external display list;
the state effect is appending the new window and wiring its loaded callback
to the shared readiness event. -/
def rCreateWindow (cfg : WinCfg) (st : RCore) : RCore :=
  { st with windows := st.windows ++ [cfg] }

/-- The reserved synchronous-return marker. -/
def SENTINEL : String := "_~_~RETURN~_~_"

/-- Boolean prefix test on character lists. -/
def isPfxOf : List Char → List Char → Bool
  | [], _ => true
  | _ :: _, [] => false
  | p :: ps, c :: cs => p = c && isPfxOf ps cs

/-- Python substring containment (the `in` operator on strings): the pattern
occurs at some position of the haystack. -/
def containsSub (pat : List Char) : List Char → Bool
  | [] => isPfxOf pat []
  | c :: cs => isPfxOf pat (c :: cs) || containsSub pat cs

/-- The containment test the loop performs on an evaluate payload. -/
def sentinelIn (arg : String) : Bool :=
  containsSub SENTINEL.toList arg.toList

/-- How one run of PyWV.loop ends in this embedding (the loop body runs until
it returns, raises, or exhausts the queued commands and is left polling). -/
inductive LoopExit where
  | drained
  | startFailed
  | startedNative (debug : Bool)
  | stopped
  | silentReturn
  | raisedJs (script : String) (errStr : String)
  | raisedIndexError (i : Int)

/-- PyWV.loop, run over a finite list of pending commands.  Returns the state,
the commands still in the queue when the loop ends, and how it ended.
Branching follows the source line by line: the lifecycle keywords are tested
first; otherwise the command is window-addressed and the window list is
indexed before the payload is inspected (an unresolvable index raises an
uncaught IndexError); show and hide call the native operation; any other
payload is a script, evaluated with a reply pushed to return_queue exactly
when the payload contains the sentinel (the first 14 characters are then
stripped); a KeyError from evaluation causes a bare return, and a
JavascriptException is re-raised with a formatted message.  A start with a
nonempty window list enters the external webview.start run-loop (passing the
loop itself as the post-start callback); what happens inside it is driven by
the UI toolkit and is not modelled past that boundary. -/
def pyLoop (ev : EvalOracle) : List Cmd → RCore → RCore × List Cmd × LoopExit
  | q, st =>
    if st.is_alive = false then (st, q, .drained)
    else match q with
    | [] => (st, [], .drained)
    | cmd :: rest =>
      match cmd with
      | .create_window cfg => pyLoop ev rest (rCreateWindow cfg st)
      | .start debug =>
        if st.windows.isEmpty then
          ({ st with is_alive := false }, rest, .startFailed)
        else
          ({ st with is_alive := false, emit_queue := st.emit_queue ++ ["exit"] },
            rest, .startedNative debug)
      | .stop => ({ st with is_alive := false }, rest, .stopped)
      | .win i arg =>
        match pyIndex st.windows i with
        | none => (st, rest, .raisedIndexError i)
        | some _ =>
          if arg = "show" then
            pyLoop ev rest { st with native_calls := st.native_calls ++ [(i, "show")] }
          else if arg = "hide" then
            pyLoop ev rest { st with native_calls := st.native_calls ++ [(i, "hide")] }
          else
            if sentinelIn arg then
              match ev i (arg.drop 14) with
              | .ok v => pyLoop ev rest { st with return_queue := st.return_queue ++ [v] }
              | .keyError => (st, rest, .silentReturn)
              | .jsError m => (st, rest, .raisedJs arg m)
            else
              match ev i arg with
              | .ok _ => pyLoop ev rest st
              | .keyError => (st, rest, .silentReturn)
              | .jsError m => (st, rest, .raisedJs arg m)

/-! ## Supervisor side: class WebviewHandler -/

/-- Supervisor state: the readiness event, the three channels, the renderer
process object (whether start() was called on it and whether it is currently
alive), the window-handle counter, and the debug flag.  The threading.Lock
guarding exit() exists in the source; in this sequential embedding each
operation runs to completion, so lock acquisition always succeeds and mutual
exclusion between concurrent callers is outside the model. -/
structure WVState where
  loaded_event : Bool
  return_queue : MpQueue PyVal
  function_call_queue : MpQueue Cmd
  emit_queue : MpQueue String
  proc_started : Bool
  proc_alive : Bool
  max_window_num : Int
  debug : Bool

/-- WebviewHandler._reset: fresh event, three fresh unbounded queues, a fresh
(not yet started) process object, and the handle counter back to -1. -/
def WVState.resetFields (st : WVState) : WVState :=
  { st with
    loaded_event := false
    return_queue := MpQueue.new
    function_call_queue := MpQueue.new
    emit_queue := MpQueue.new
    proc_started := false
    proc_alive := false
    max_window_num := -1 }

/-- WebviewHandler.__init__: _reset, then debug := False (the lock is created
here too; see WVState). -/
def WVState.init : WVState :=
  WVState.resetFields
    { loaded_event := false, return_queue := MpQueue.new,
      function_call_queue := MpQueue.new, emit_queue := MpQueue.new,
      proc_started := false, proc_alive := false, max_window_num := -1,
      debug := false }

/-- The timeout constant declared in the class body (seconds). -/
def QUEUE_TIMEOUT : ℚ := 5

/-- WebviewHandler.create_window: enqueue the create_window command (plain
blocking put), bump the handle counter, return the new counter value.  The
handle is assigned locally without waiting for the renderer. -/
def WVState.create_window (cfg : WinCfg) (st : WVState) : PyRes (WVState × Int) :=
  match st.function_call_queue.put (.create_window cfg) none with
  | .ok q =>
    let n := st.max_window_num + 1
    .ok ({ st with function_call_queue := q, max_window_num := n }, n)
  | .blocked => .blocked
  | .exn e => .exn e

/-- The first (shadowed) definition of evaluate_js in the class body: put with
a 5-second timeout, catching queue.Full and re-raising TimeoutError.  Note
that the name Full is never imported in chart.py (only Empty is), so if the
put ever did raise queue.Full, evaluating the except clause would itself raise
NameError; with the unbounded queues the supervisor builds, neither path can
trigger. -/
def WVState.evaluate_js_first (st : WVState) (window_num : Int) (script : String) :
    PyRes WVState :=
  match st.function_call_queue.put (.win window_num script) (some QUEUE_TIMEOUT) with
  | .ok q => .ok { st with function_call_queue := q }
  | .blocked => .blocked
  | .exn _ => .exn ("NameError")

/-- The second definition of evaluate_js in the class body: a plain blocking
put with no timeout. -/
def WVState.evaluate_js_second (st : WVState) (window_num : Int) (script : String) :
    PyRes WVState :=
  match st.function_call_queue.put (.win window_num script) none with
  | .ok q => .ok { st with function_call_queue := q }
  | .blocked => .blocked
  | .exn e => .exn e

/-- Tags for the method definitions executed in the WebviewHandler class body,
in textual order.  Python executes the class body top to bottom and a later
def rebinds the name, so lookup resolves to the last binding. -/
inductive MethodTag where
  | create_window_def
  | evaluate_js_first_def
  | start_def
  | show_def
  | hide_def
  | evaluate_js_second_def
  | exit_def
deriving DecidableEq, Repr

/-- The class body of WebviewHandler, as the ordered list of method-name
bindings it executes. -/
def classBody : List (String × MethodTag) :=
  [("create_window", .create_window_def),
   ("evaluate_js", .evaluate_js_first_def),
   ("start", .start_def),
   ("show", .show_def),
   ("hide", .hide_def),
   ("evaluate_js", .evaluate_js_second_def),
   ("exit", .exit_def)]

/-- Method resolution on the finished class: the last binding of the name. -/
def resolveMethod (name : String) : Option MethodTag :=
  ((classBody.filter (fun p => p.1 = name)).getLast?).map (fun p => p.2)

/-- The effective evaluate_js of a WebviewHandler instance is the second
definition (it shadows the first, see resolveMethod). -/
def WVState.evaluate_js (st : WVState) (window_num : Int) (script : String) :
    PyRes WVState :=
  st.evaluate_js_second window_num script

/-- WebviewHandler.show. -/
def WVState.showWin (st : WVState) (window_num : Int) : PyRes WVState :=
  match st.function_call_queue.put (.win window_num "show") none with
  | .ok q => .ok { st with function_call_queue := q }
  | .blocked => .blocked
  | .exn e => .exn e

/-- WebviewHandler.hide. -/
def WVState.hideWin (st : WVState) (window_num : Int) : PyRes WVState :=
  match st.function_call_queue.put (.win window_num "hide") none with
  | .ok q => .ok { st with function_call_queue := q }
  | .blocked => .blocked
  | .exn e => .exn e

/-! ### exit() -/

/-- The steps of the termination block inside exit()'s try. -/
inductive TermStep where
  | putStop
  | join2
  | terminate
  | join1
  | kill
deriving DecidableEq, Repr

/-- Oracle for the renderer process's behaviour during teardown: whether it
exits within the 2.0s join after the stop command, whether it exits within the
1.0s join after terminate(), and whether some step of the termination block
raises an exception (and which step). -/
structure ProcO where
  stopsOnStop : Bool
  stopsOnTerminate : Bool
  raisesAt : Option TermStep

/-- Trace of one exit() call: which termination steps ran, the join timeouts
used, and the exception caught and logged by the except clause, if any. -/
structure ExitTrace where
  stop_enqueued : Bool
  join2 : Bool
  join2_timeout : ℚ
  terminated : Bool
  join1 : Bool
  join1_timeout : ℚ
  killed : Bool
  exn_logged : Option TermStep
deriving DecidableEq, Repr

/-- The termination block of exit() (the body of its try), with the oracle
deciding liveness responses and injected exceptions.  Returns the trace; an
injected exception aborts the block at its step and is reported for logging.
Each step runs only if reached: an exception at an earlier step prevents the
later ones, and each escalation step runs only if the process is still alive
after the previous join. -/
def exitTermBlock (po : ProcO) (st : WVState) : ExitTrace :=
  let tr0 : ExitTrace :=
    { stop_enqueued := false, join2 := false, join2_timeout := 2,
      terminated := false, join1 := false, join1_timeout := 1,
      killed := false, exn_logged := none }
  if st.proc_alive = false then tr0
  else if po.raisesAt = some .putStop then { tr0 with exn_logged := some .putStop }
  else
    let tr1 := { tr0 with stop_enqueued := true }
    if po.raisesAt = some .join2 then { tr1 with exn_logged := some .join2 }
    else
      let tr2 := { tr1 with join2 := true }
      let aliveAfterStop := !po.stopsOnStop
      if aliveAfterStop = false then tr2
      else if po.raisesAt = some .terminate then { tr2 with exn_logged := some .terminate }
      else
        let tr3 := { tr2 with terminated := true }
        if po.raisesAt = some .join1 then { tr3 with exn_logged := some .join1 }
        else
          let tr4 := { tr3 with join1 := true }
          let aliveAfterTerm := !po.stopsOnTerminate
          if aliveAfterTerm = false then tr4
          else if po.raisesAt = some .kill then { tr4 with exn_logged := some .kill }
          else { tr4 with killed := true }

/-- WebviewHandler.exit: under the lock, run the termination block with every
exception caught and logged, then (finally) drain the three queues
non-blockingly and _reset, reconstructing fresh channels, event and process
object.  The function always returns normally. -/
def WVState.exit (po : ProcO) (st : WVState) : WVState × ExitTrace :=
  let tr := exitTermBlock po st
  let drained :=
    { st with
      function_call_queue := { st.function_call_queue with items := [] }
      emit_queue := { st.emit_queue with items := [] }
      return_queue := { st.return_queue with items := [] } }
  (drained.resetFields, tr)

/-! ### start() -/

/-- The externally visible actions start() performs, in order. -/
inductive StartAction where
  | clearEvent
  | spawnProcess
  | enqueueStart
  | waitReadiness (timeoutSeconds : ℚ)
  | exitCalled
  | raiseTimeoutError
deriving DecidableEq, Repr

/-- Oracle for start(): whether the readiness event gets set by the renderer
within the wait's timeout, and the process-teardown behaviour used if the
timeout path calls exit(). -/
structure StartO where
  loadsWithin : Bool
  procO : ProcO

/-- WebviewHandler.start: clear the readiness event, start the process,
enqueue the start command (plain blocking put on the unbounded queue), then
wait on the readiness event with the 5-second timeout; if the wait times out,
call exit() and raise TimeoutError.  Returns the call's outcome, the state of
the supervisor object after the call (it survives a raise: on the timeout path
it is the state exit() left behind), and the ordered action trace.  A process
object can only be started once: process.start() on an already started
process raises AssertionError. -/
def WVState.start (so : StartO) (st : WVState) :
    PyRes WVState × WVState × List StartAction :=
  let st1 := { st with loaded_event := false }
  if st1.proc_started then
    (.exn ("AssertionError"), st1, [.clearEvent, .spawnProcess])
  else
    let st2 := { st1 with proc_started := true, proc_alive := true }
    match st2.function_call_queue.put (.start st2.debug) none with
    | .blocked => (.blocked, st2, [.clearEvent, .spawnProcess, .enqueueStart])
    | .exn e => (.exn e, st2, [.clearEvent, .spawnProcess, .enqueueStart])
    | .ok q =>
      let st3 := { st2 with function_call_queue := q }
      if so.loadsWithin then
        let st4 := { st3 with loaded_event := true }
        (.ok st4, st4,
         [.clearEvent, .spawnProcess, .enqueueStart, .waitReadiness QUEUE_TIMEOUT])
      else
        (.exn ("TimeoutError"), (st3.exit so.procO).1,
         [.clearEvent, .spawnProcess, .enqueueStart, .waitReadiness QUEUE_TIMEOUT,
          .exitCalled, .raiseTimeoutError])

/-! ### Operation sequences over one supervisor -/

/-- A controller-side operation on the supervisor, for runs that exercise
handle allocation across exit()+reset cycles. -/
inductive SupOp where
  | createWin (cfg : WinCfg)
  | exitOp (po : ProcO)

/-- Run a sequence of create_window / exit operations, collecting the window
handles returned by the create_window calls, in order.  A blocked or raising
create_window ends the run (it cannot occur on the unbounded queues the
supervisor builds). -/
def runOps : List SupOp → WVState → WVState × List Int
  | [], st => (st, [])
  | .createWin cfg :: rest, st =>
    match st.create_window cfg with
    | .ok (st1, h) =>
      let (st2, hs) := runOps rest st1
      (st2, h :: hs)
    | _ => (st, [])
  | .exitOp po :: rest, st => runOps rest (st.exit po).1

/-! ## Controller side: the event pump of Chart.show_async -/

/-- What the pump observes at one iteration of its poll loop: a message
dequeued from the emit queue, a KeyboardInterrupt delivered at this point, or
the liveness flag having been cleared (by Chart.exit in another task), which
the inner wait loop notices. -/
inductive PumpEvt where
  | msg (s : String)
  | interrupt
  | aliveCleared

/-- Pump-side state: the supervisor it tears down on the exit sentinel, the
chart's is_alive flag, the non-sentinel messages dispatched so far (each is
decoded by parse_event_message into a handler and arguments and invoked,
awaited when the handler is a coroutine; the handlers themselves are
external), and whether WV.exit() was invoked. -/
structure PumpState where
  wv : WVState
  is_alive : Bool
  dispatched : List String
  exitCalled : Bool

/-- How one run of the pump ends. -/
inductive PumpExit where
  | exitSentinel
  | interrupted
  | notAlive
  | stillPolling

/-- The while-loop body of Chart.show_async, run over a finite schedule of
observations.  A message equal to the literal exit sentinel triggers
WV.exit(), clears is_alive and returns, with no handler lookup; any other
message is decoded and dispatched, and the loop continues; a cleared liveness
flag makes the loop return before dequeuing; KeyboardInterrupt is caught by
the surrounding except clause and becomes a plain return. -/
def showAsyncLoop (po : ProcO) : List PumpEvt → PumpState → PumpState × PumpExit
  | [], ps => (ps, .stillPolling)
  | evt :: rest, ps =>
    match evt with
    | .aliveCleared => ({ ps with is_alive := false }, .notAlive)
    | .interrupt => (ps, .interrupted)
    | .msg s =>
      if s = "exit" then
        ({ ps with wv := (ps.wv.exit po).1, is_alive := false, exitCalled := true },
          .exitSentinel)
      else
        showAsyncLoop po rest { ps with dispatched := ps.dispatched ++ [s] }

/-! ## The error-parsing helper PyWV._parse_js_error

The first tier is json.loads.  On a str argument json.loads either returns the
decoded value or raises json.JSONDecodeError; the model parses JSON objects,
arrays, strings, integers, booleans and null (float literals and exotic
numeric forms are outside the model, which rejects them).  The second tier is
four independent re.search calls with fixed patterns; each pattern is encoded
directly as a scanning function with the same leftmost-match semantics. -/

/-- JSON whitespace (RFC 8259): space, tab, line feed, carriage return. -/
def isJsonWs (c : Char) : Bool :=
  c = ' ' || c = Char.ofNat 9 || c = Char.ofNat 10 || c = Char.ofNat 13

/-- Drop leading JSON whitespace. -/
def skipWs (l : List Char) : List Char := l.dropWhile isJsonWs

/-- Value of a hexadecimal digit. -/
def hexVal (c : Char) : Option Nat :=
  if c.isDigit then some (c.toNat - 48)
  else if 'a' ≤ c && c ≤ 'f' then some (c.toNat - 87)
  else if 'A' ≤ c && c ≤ 'F' then some (c.toNat - 55)
  else none

/-- Parse the body of a JSON string (the opening double quote already
consumed), handling the escape sequences of RFC 8259. -/
def parseJStrBody : List Char → Option (List Char × List Char)
  | [] => none
  | c :: rest =>
    if c = dquote then some ([], rest)
    else if c = '\\' then
      match rest with
      | [] => none
      | e :: rest2 =>
        let simpleEsc : Option Char :=
          if e = dquote then some dquote
          else if e = '\\' then some '\\'
          else if e = '/' then some '/'
          else if e = 'b' then some (Char.ofNat 8)
          else if e = 'f' then some (Char.ofNat 12)
          else if e = 'n' then some (Char.ofNat 10)
          else if e = 'r' then some (Char.ofNat 13)
          else if e = 't' then some (Char.ofNat 9)
          else none
        match simpleEsc with
        | some ch =>
          (parseJStrBody rest2).map (fun p => (ch :: p.1, p.2))
        | none =>
          if e = 'u' then
            match rest2 with
            | h1 :: h2 :: h3 :: h4 :: rest3 =>
              match hexVal h1, hexVal h2, hexVal h3, hexVal h4 with
              | some v1, some v2, some v3, some v4 =>
                let code := ((v1 * 16 + v2) * 16 + v3) * 16 + v4
                (parseJStrBody rest3).map (fun p => (Char.ofNat code :: p.1, p.2))
              | _, _, _, _ => none
            | _ => none
          else none
    else if c.toNat < 32 then none
    else (parseJStrBody rest).map (fun p => (c :: p.1, p.2))

/-- Fold decimal digits to a natural number. -/
def digitsToNat (ds : List Char) : Nat :=
  ds.foldl (fun acc c => acc * 10 + (c.toNat - 48)) 0

/-- Parse a JSON integer literal (an optional minus sign and digits); a
fractional part or exponent makes the literal a float, which is outside the
model. -/
def parseJInt : List Char → Option (Int × List Char)
  | l =>
    let (neg, l1) : Bool × List Char :=
      match l with
      | '-' :: rest => (true, rest)
      | _ => (false, l)
    let ds := l1.takeWhile Char.isDigit
    let rest := l1.dropWhile Char.isDigit
    if ds.isEmpty then none
    else
      let bad : Bool :=
        match rest with
        | c :: _ => c = '.' || c = 'e' || c = 'E'
        | [] => false
      if bad then none
      else
        let n : Int := digitsToNat ds
        some (if neg then -n else n, rest)

mutual

/-- Parse one JSON value. -/
def parseVal : Nat → List Char → Option (PyVal × List Char)
  | 0, _ => none
  | fuel + 1, l =>
    match skipWs l with
    | [] => none
    | c :: rest =>
      if c = dquote then
        (parseJStrBody rest).map (fun p => (.pyStr (String.mk p.1), p.2))
      else if c = lbrace then
        (parseObjBody fuel rest true).map (fun p => (.pyDict p.1, p.2))
      else if c = '[' then
        (parseArrBody fuel rest true).map (fun p => (.pyList p.1, p.2))
      else if isPfxOf ['t', 'r', 'u', 'e'] (c :: rest) then
        some (.pyBool true, rest.drop 3)
      else if isPfxOf ['f', 'a', 'l', 's', 'e'] (c :: rest) then
        some (.pyBool false, rest.drop 4)
      else if isPfxOf ['n', 'u', 'l', 'l'] (c :: rest) then
        some (.pyNone, rest.drop 3)
      else
        (parseJInt (c :: rest)).map (fun p => (.pyInt p.1, p.2))

/-- Parse the members of a JSON object after the opening brace. -/
def parseObjBody (fuel : Nat) (l : List Char) (first : Bool) :
    Option (List (String × PyVal) × List Char) :=
  match fuel with
  | 0 => none
  | fuel + 1 =>
    let l1 := skipWs l
    match l1 with
    | [] => none
    | c :: rest =>
      if first && c = rbrace then some ([], rest)
      else
        let afterComma : Option (List Char) :=
          if first then some l1
          else if c = ',' then some (skipWs rest) else none
        match afterComma with
        | none =>
          if c = rbrace then some ([], rest) else none
        | some l2 =>
          match l2 with
          | [] => none
          | k :: krest =>
            if k = dquote then
              match parseJStrBody krest with
              | none => none
              | some (keyChars, afterKey) =>
                match skipWs afterKey with
                | ':' :: afterColon =>
                  match parseVal fuel afterColon with
                  | none => none
                  | some (v, afterVal) =>
                    (parseObjBody fuel (skipWs afterVal) false).map
                      (fun p => ((String.mk keyChars, v) :: p.1, p.2))
                | _ => none
            else none

/-- Parse the elements of a JSON array after the opening bracket. -/
def parseArrBody (fuel : Nat) (l : List Char) (first : Bool) :
    Option (List PyVal × List Char) :=
  match fuel with
  | 0 => none
  | fuel + 1 =>
    let l1 := skipWs l
    match l1 with
    | [] => none
    | c :: rest =>
      if first && c = ']' then some ([], rest)
      else
        let advance : Option (List Char) :=
          if first then some l1
          else if c = ',' then some (skipWs rest) else none
        match advance with
        | none =>
          if c = ']' then some ([], rest) else none
        | some l2 =>
          match parseVal fuel l2 with
          | none => none
          | some (v, afterVal) =>
            (parseArrBody fuel (skipWs afterVal) false).map
              (fun p => (v :: p.1, p.2))

end

/-- The exception json.loads can raise on a str argument. -/
inductive JsonExn where
  | jsonDecodeError
deriving DecidableEq, Repr

/-- json.loads on a string: the whole input, up to surrounding whitespace,
must be one JSON value. -/
def jsonLoads (s : String) : Except JsonExn PyVal :=
  match parseVal (s.length + 1) s.toList with
  | some (v, rest) =>
    if (skipWs rest).isEmpty then .ok v else .error .jsonDecodeError
  | none => .error .jsonDecodeError

/-- Python regex whitespace class: space, tab, newline, carriage return, form
feed, vertical tab. -/
def isPySpace (c : Char) : Bool :=
  c = ' ' || c = Char.ofNat 9 || c = Char.ofNat 10 || c = Char.ofNat 13 ||
  c = Char.ofNat 12 || c = Char.ofNat 11

/-- The literal part of the field patterns: a single-quoted key followed by a
colon. -/
def keyPat (key : String) : List Char :=
  (sq ++ key ++ sq ++ ":").toList

/-- Strip an exact prefix, returning the remainder. -/
def stripPfx : List Char → List Char → Option (List Char)
  | [], l => some l
  | _ :: _, [] => none
  | p :: ps, c :: cs => if p = c then stripPfx ps cs else none

/-- Try the quoted-field pattern at this position: the literal key, optional
whitespace, then a single-quoted nonempty capture of non-quote characters.
This matches the regex quoted-field pattern exactly (greedy matching is exact
here because the capture class excludes the closing quote). -/
def tryQuotedAt (pat : List Char) (l : List Char) : Option String :=
  match stripPfx pat l with
  | none => none
  | some l1 =>
    match l1.dropWhile isPySpace with
    | [] => none
    | c :: rest =>
      if c = squote then
        let cap := rest.takeWhile (fun ch => ch ≠ squote)
        let rest2 := rest.dropWhile (fun ch => ch ≠ squote)
        if cap.isEmpty then none
        else match rest2 with
          | q2 :: _ => if q2 = squote then some (String.mk cap) else none
          | [] => none
      else none

/-- Try the numeric-field pattern at this position: the literal key, optional
whitespace, then a nonempty digit run. -/
def tryNatAt (pat : List Char) (l : List Char) : Option Nat :=
  match stripPfx pat l with
  | none => none
  | some l1 =>
    let l2 := l1.dropWhile isPySpace
    let ds := l2.takeWhile Char.isDigit
    if ds.isEmpty then none else some (digitsToNat ds)

/-- Leftmost-match search, as re.search: try the pattern at each position from
the left. -/
def searchQuotedGo (pat : List Char) : List Char → Option String
  | [] => none
  | l@(_ :: rest) =>
    match tryQuotedAt pat l with
    | some r => some r
    | none => searchQuotedGo pat rest

/-- re.search for the quoted-field pattern of a key. -/
def searchQuoted (key : String) (s : String) : Option String :=
  searchQuotedGo (keyPat key) s.toList

/-- Leftmost-match search for the numeric-field pattern. -/
def searchNatGo (pat : List Char) : List Char → Option Nat
  | [] => none
  | l@(_ :: rest) =>
    match tryNatAt pat l with
    | some r => some r
    | none => searchNatGo pat rest

/-- re.search for the numeric-field pattern of a key. -/
def searchNat (key : String) (s : String) : Option Nat :=
  searchNatGo (keyPat key) s.toList

/-- PyWV._parse_js_error: try json.loads first; on JSONDecodeError fall back
to the four independent pattern searches, defaulting each unmatched field. -/
def parse_js_error (error_str : String) : PyVal :=
  match jsonLoads error_str with
  | .ok v => v
  | .error .jsonDecodeError =>
    .pyDict
      [("name", .pyStr ((searchQuoted ("name") error_str).getD ("Unknown"))),
       ("line", .pyInt (((searchNat ("line") error_str).getD 0 : Nat) : Int)),
       ("column", .pyInt (((searchNat ("column") error_str).getD 0 : Nat) : Int)),
       ("message", .pyStr ((searchQuoted ("message") error_str).getD error_str))]

/-- Key list of a dict value (empty for non-dicts). -/
def dictKeys : PyVal → List String
  | .pyDict xs => xs.map (fun p => p.1)
  | _ => []

/-- Lookup of a key in a dict value. -/
def dictGet (v : PyVal) (k : String) : Option PyVal :=
  match v with
  | .pyDict xs => (xs.find? (fun p => p.1 = k)).map (fun p => p.2)
  | _ => none

/-! ## Concrete fixtures for witnesses and counterexamples -/

/-- A window configuration used by concrete runs. -/
def cfg0 : WinCfg :=
  { width := 800, height := 600, x := none, y := none, screen := none,
    on_top := false, maximize := false, title := "" }

/-- A benign process-behaviour oracle: the renderer obeys the stop command and
nothing raises. -/
def po0 : ProcO := { stopsOnStop := true, stopsOnTerminate := true, raisesAt := none }

/-- Renderer state with no windows, freshly alive. -/
def rcNoWin : RCore :=
  { return_queue := [], emit_queue := [], windows := [], is_alive := true,
    loaded_event := false, native_calls := [] }

/-- Renderer state with one window. -/
def rcOneWin : RCore := { rcNoWin with windows := [cfg0] }

/-- A JavaScript oracle whose evaluations all succeed with one fixed value. -/
def evOk : EvalOracle := fun _ _ => .ok (.pyStr ("r"))

/-- A JavaScript oracle whose evaluations raise KeyError. -/
def evKE : EvalOracle := fun _ _ => .keyError

/-! ## Claim theorems: renderer loop -/

/-- C9: when the renderer loop dequeues a start command while its window list
is empty, it sets is_alive to false and returns at once with the remaining
commands unprocessed; the result is the fail-fast exit, not the native
run-loop, and nothing is emitted. -/
theorem C9_start_before_createWindow_fails_fast (ev : EvalOracle) (d : Bool)
    (rest : List Cmd) (st : RCore) (hw : st.windows = []) (ha : st.is_alive = true) :
    pyLoop ev (Cmd.start d :: rest) st =
      ({ st with is_alive := false }, rest, LoopExit.startFailed) := by
  simp [pyLoop, ha, hw]

/-- Witness for C9 at a concrete state: a start with no window created leaves
a queued stop unprocessed. -/
theorem C9_witness :
    pyLoop evOk [Cmd.start false, Cmd.stop] rcNoWin =
      ({ rcNoWin with is_alive := false }, [Cmd.stop], LoopExit.startFailed) :=
  C9_start_before_createWindow_fails_fast evOk false [Cmd.stop] rcNoWin rfl rfl

/-- C10: a window-addressed evaluate whose script execution raises KeyError
makes the loop return immediately and silently: the state (in particular the
reply queue) is unchanged, no error outcome is produced, and every command
still pending in the queue is left unprocessed by this loop run. -/
theorem C10_keyError_returns_silently_and_permanently (ev : EvalOracle)
    (st : RCore) (i : Int) (arg : String) (w : WinCfg) (rest : List Cmd)
    (ha : st.is_alive = true) (hw : pyIndex st.windows i = some w)
    (hs : arg ≠ "show") (hh : arg ≠ "hide")
    (hk : ev i (if sentinelIn arg then arg.drop 14 else arg) = EvalRes.keyError) :
    pyLoop ev (Cmd.win i arg :: rest) st = (st, rest, LoopExit.silentReturn) := by
  cases hsen : sentinelIn arg
  · simp only [hsen, Bool.false_eq_true, if_false] at hk
    simp [pyLoop, ha, hw, hs, hh, hsen, hk]
  · simp only [hsen, if_true] at hk
    simp [pyLoop, ha, hw, hs, hh, hsen, hk]

/-- Witness for C10 at a concrete state: a KeyError-raising evaluate leaves a
queued stop forever unprocessed and pushes no reply. -/
theorem C10_witness :
    pyLoop evKE [Cmd.win 0 ("am"), Cmd.stop] rcOneWin =
      (rcOneWin, [Cmd.stop], LoopExit.silentReturn) :=
  C10_keyError_returns_silently_and_permanently evKE rcOneWin 0 ("am") cfg0
    [Cmd.stop] rfl rfl (by decide) (by decide) rfl

/-- Counterexample for C3 as stated: with no window, the window-addressed
command (0, show) is not swallowed; the loop raises an uncaught IndexError
(the indexing happens outside the try block, whose except clauses catch only
KeyError and JavascriptException) and the queued stop command is never
processed, so the loop neither continues nor exits cleanly. -/
theorem C3_counterexample :
    pyLoop evOk [Cmd.win 0 ("show"), Cmd.stop] rcNoWin =
      (rcNoWin, [Cmd.stop], LoopExit.raisedIndexError 0) ∧
    ([Cmd.stop] : List Cmd) ≠ [] := by
  exact ⟨rfl, by simp⟩

/-- C3 amended: a window-addressed command (show, hide or evaluate) whose
handle does not resolve to an existing window raises an uncaught IndexError
that terminates the loop, producing no reply and leaving all pending commands
unprocessed; only a KeyError raised during script execution of a resolvable
evaluate is swallowed, and that swallow also returns from the loop. -/
theorem C3_amended_invalid_handle_raises_IndexError (ev : EvalOracle)
    (st : RCore) (i : Int) (arg : String) (rest : List Cmd)
    (ha : st.is_alive = true) (hw : pyIndex st.windows i = none) :
    pyLoop ev (Cmd.win i arg :: rest) st = (st, rest, LoopExit.raisedIndexError i) := by
  simp [pyLoop, ha, hw]

/-- Witness for the amended C3 at a concrete state. -/
theorem C3_witness :
    pyLoop evOk [Cmd.win 3 ("hide"), Cmd.stop] rcOneWin =
      (rcOneWin, [Cmd.stop], LoopExit.raisedIndexError 3) :=
  C3_amended_invalid_handle_raises_IndexError evOk rcOneWin 3 ("hide")
    [Cmd.stop] rfl rfl

/-- A script that contains the sentinel but is not prefixed by it. -/
def argC6 : String := "ab" ++ SENTINEL

/-- Counterexample for C6 as stated: the loop tests sentinel containment, not
prefixing.  For a script that merely contains the sentinel further in, the
claim demands fire-and-forget with nothing pushed to the return channel, but
the loop pushes the evaluation result. -/
theorem C6_counterexample :
    isPfxOf SENTINEL.toList argC6.toList = false ∧
    (pyLoop evOk [Cmd.win 0 argC6] rcOneWin).1.return_queue = [PyVal.pyStr ("r")] :=
  ⟨by decide, rfl⟩

/-- C6 amended: for an evaluate command on a resolvable window, the result is
pushed to the return channel if and only if the script CONTAINS the sentinel
anywhere (Python in-operator), and in that case the first 14 characters (the
sentinel's length) are stripped before execution regardless of where the
sentinel occurs; a script without the sentinel is executed as is, fire and
forget, with nothing pushed. -/
theorem C6_amended_sentinel_containment_strips_14 (ev : EvalOracle) (st : RCore)
    (i : Int) (arg : String) (w : WinCfg) (rest : List Cmd)
    (ha : st.is_alive = true) (hw : pyIndex st.windows i = some w)
    (hs : arg ≠ "show") (hh : arg ≠ "hide") :
    (∀ v, sentinelIn arg = true → ev i (arg.drop 14) = EvalRes.ok v →
      pyLoop ev (Cmd.win i arg :: rest) st =
        pyLoop ev rest { st with return_queue := st.return_queue ++ [v] }) ∧
    (∀ v, sentinelIn arg = false → ev i arg = EvalRes.ok v →
      pyLoop ev (Cmd.win i arg :: rest) st = pyLoop ev rest st) := by
  constructor
  · intro v hsen hv
    simp [pyLoop, ha, hw, hs, hh, hsen, hv]
  · intro v hsen hv
    simp [pyLoop, ha, hw, hs, hh, hsen, hv]

/-- Witness for the amended C6 at a concrete state: a sentinel-prefixed script
gets its first 14 characters stripped and its result pushed. -/
theorem C6_witness :
    pyLoop evOk [Cmd.win 0 (SENTINEL ++ "1+1")] rcOneWin =
      pyLoop evOk []
        { rcOneWin with return_queue := rcOneWin.return_queue ++ [PyVal.pyStr ("r")] } :=
  (C6_amended_sentinel_containment_strips_14 evOk rcOneWin 0 (SENTINEL ++ "1+1")
    cfg0 [] rfl rfl (by decide) (by decide)).1 (PyVal.pyStr ("r")) (by decide) rfl

/-! ## Claim theorems: supervisor -/

/-- The state component of exit() is a full reset (fresh channels, fresh
unstarted process, counter back to -1, debug preserved), whatever the process
behaviour. -/
theorem WVState.exit_fst (po : ProcO) (st : WVState) :
    (st.exit po).1 = st.resetFields := rfl

/-- Operation list of n successive create_window calls. -/
def creates (cfg : WinCfg) (n : Nat) : List SupOp :=
  List.replicate n (SupOp.createWin cfg)

/-- Handles returned by n successive create_window calls on a supervisor with
an unbounded command queue: counter + 1, counter + 2, ... -/
theorem runOps_creates (cfg : WinCfg) :
    ∀ (n : Nat) (st : WVState), st.function_call_queue.maxsize = none →
      (runOps (creates cfg n) st).2 =
        (List.range n).map (fun (k : Nat) => st.max_window_num + 1 + (k : Int)) := by
  intro n
  induction n with
  | zero => intro st hq; simp [creates, runOps]
  | succ n ih =>
    intro st hq
    have hacc : st.function_call_queue.canAccept = true := by
      simp [MpQueue.canAccept, hq]
    have hq1 : (st.function_call_queue.push (Cmd.create_window cfg)).maxsize = none := by
      simp [MpQueue.push, hq]
    simp only [creates, List.replicate_succ, runOps, WVState.create_window,
      MpQueue.put, hacc, if_true]
    have ih' := ih { st with
        function_call_queue := st.function_call_queue.push (Cmd.create_window cfg),
        max_window_num := st.max_window_num + 1 } hq1
    simp only [creates] at ih'
    rw [ih']
    rw [List.range_succ_eq_map]
    simp only [List.map_cons, List.map_map, Nat.cast_zero, add_zero, Function.comp]
    congr 1
    apply List.map_congr_left
    intro k _
    simp only [Function.comp_apply]
    push_cast
    ring

/-- Counterexample for C1 as stated: the run create_window, exit, then
create_window returns the handle 0 twice, because exit()'s reset puts the
counter back to -1; handle values are reused after an exit-and-reset cycle. -/
theorem C1_counterexample :
    (runOps [SupOp.createWin cfg0, SupOp.exitOp po0, SupOp.createWin cfg0]
        WVState.init).2 = [0, 0] ∧
    ¬ List.Pairwise (fun a b : Int => a ≠ b) [(0 : Int), 0] :=
  ⟨rfl, by decide⟩

/-- C1 amended: successive create_window calls with no intervening exit()
return strictly increasing handles (counter + 1, counter + 2, ...), pairwise
distinct within that stretch; but exit()'s reset puts the counter back to -1,
so handle values are reused across an exit-and-reset cycle. -/
theorem C1_amended_handles_monotone_between_resets (cfg : WinCfg) (po : ProcO)
    (n : Nat) (st : WVState) (hq : st.function_call_queue.maxsize = none) :
    (runOps (creates cfg n) st).2 =
      (List.range n).map (fun (k : Nat) => st.max_window_num + 1 + (k : Int)) ∧
    List.Pairwise (fun a b : Int => a < b) (runOps (creates cfg n) st).2 ∧
    ((st.exit po).1).max_window_num = -1 := by
  refine ⟨runOps_creates cfg n st hq, ?_, rfl⟩
  rw [runOps_creates cfg n st hq]
  refine List.Pairwise.map _ ?_ (List.pairwise_lt_range n)
  intro a b hab
  omega

/-- Witness for the amended C1 at a concrete input: three creates on a fresh
supervisor return 0, 1, 2. -/
theorem C1_witness :
    (runOps (creates cfg0 3) WVState.init).2 =
      (List.range 3).map (fun (k : Nat) => WVState.init.max_window_num + 1 + (k : Int)) :=
  (C1_amended_handles_monotone_between_resets cfg0 po0 3 WVState.init rfl).1

/-- A supervisor state whose command channel is a bounded queue that is
currently full (such a channel never arises from _reset, which builds
unbounded queues; the state makes the claim's cannot-accept condition
concrete). -/
def stFull : WVState :=
  { WVState.init with function_call_queue := { items := [Cmd.stop], maxsize := some 1 } }

/-- Counterexample for C2 as stated: at a state whose command channel cannot
accept the item, the effective evaluate_js does not fail with a
QueueFull/Timeout error within any timeout; it blocks forever (the second
definition of evaluate_js shadows the first, and performs a plain blocking
put with no timeout argument). -/
theorem C2_counterexample :
    stFull.function_call_queue.canAccept = false ∧
    stFull.evaluate_js 0 ("s") = PyRes.blocked ∧
    stFull.evaluate_js 0 ("s") ≠ PyRes.exn ("TimeoutError") := by
  refine ⟨rfl, rfl, ?_⟩
  intro h
  rw [show stFull.evaluate_js 0 ("s") = PyRes.blocked from rfl] at h
  exact PyRes.noConfusion h

/-- C2 amended: the class body binds evaluate_js twice and the second binding
shadows the first, so the effective evaluate_js performs a plain blocking put
with no timeout: on the unbounded channel the supervisor actually builds it
always succeeds, buffering without bound; on a channel that cannot accept the
item it would block forever; it never raises a QueueFull/Timeout error. -/
theorem C2_amended_evaluate_js_shadowed_unbounded :
    resolveMethod ("evaluate_js") = some MethodTag.evaluate_js_second_def ∧
    (∀ (st : WVState) (w : Int) (s : String),
      st.function_call_queue.maxsize = none →
      st.evaluate_js w s =
        PyRes.ok { st with
          function_call_queue := st.function_call_queue.push (Cmd.win w s) }) ∧
    (∀ (st : WVState) (w : Int) (s : String),
      st.function_call_queue.canAccept = false →
      st.evaluate_js w s = PyRes.blocked) := by
  refine ⟨rfl, ?_, ?_⟩
  · intro st w s hq
    have hacc : st.function_call_queue.canAccept = true := by
      simp [MpQueue.canAccept, hq]
    simp [WVState.evaluate_js, WVState.evaluate_js_second, MpQueue.put, hacc]
  · intro st w s hacc
    simp [WVState.evaluate_js, WVState.evaluate_js_second, MpQueue.put, hacc]

/-- Witness for the amended C2 at a concrete input: on the fresh supervisor
the effective evaluate_js enqueues and succeeds. -/
theorem C2_witness :
    WVState.init.evaluate_js 0 ("s") =
      PyRes.ok { WVState.init with
        function_call_queue := WVState.init.function_call_queue.push (Cmd.win 0 ("s")) } :=
  C2_amended_evaluate_js_shadowed_unbounded.2.1 WVState.init 0 ("s") rfl

/-- Which termination steps exit() reaches for a given process behaviour:
the stop put and first join run when the process is alive; terminate and the
second join additionally require the process to survive the stop; kill
additionally requires it to survive terminate.  This is a derived
characterization of exitTermBlock. -/
def stepReached (po : ProcO) (alive : Bool) : TermStep → Bool
  | .putStop => alive
  | .join2 => alive
  | .terminate => alive && !po.stopsOnStop
  | .join1 => alive && !po.stopsOnStop
  | .kill => alive && !po.stopsOnStop && !po.stopsOnTerminate

/-- C4: exit() always returns normally with the supervisor fully reset (all
three channels drained and rebuilt, fresh unstarted process, counter back to
-1), for every process behaviour including ones that raise during
termination; a second exit() leaves the state unchanged (idempotence); when
nothing raises, the escalation ladder is exactly: if the process is alive,
enqueue stop and join with timeout 2s; if it survives, terminate and join
with timeout 1s; if it still survives, kill; and an exception injected at any
step of the termination block is logged exactly when that step is reached,
and is never propagated. -/
theorem C4_exit_total_idempotent_escalation (po po2 : ProcO) (st : WVState) :
    (st.exit po).1 = st.resetFields ∧
    (((st.exit po).1).exit po2).1 = (st.exit po).1 ∧
    ((st.exit po).1).proc_started = false ∧
    ((st.exit po).1).function_call_queue.items = [] ∧
    ((st.exit po).1).emit_queue.items = [] ∧
    ((st.exit po).1).return_queue.items = [] ∧
    (po.raisesAt = none →
      ((st.exit po).2.stop_enqueued = st.proc_alive ∧
       (st.exit po).2.join2 = st.proc_alive ∧
       (st.exit po).2.join2_timeout = 2 ∧
       (st.exit po).2.terminated = (st.proc_alive && !po.stopsOnStop) ∧
       (st.exit po).2.join1_timeout = 1 ∧
       (st.exit po).2.killed =
         (st.proc_alive && !po.stopsOnStop && !po.stopsOnTerminate) ∧
       (st.exit po).2.exn_logged = none)) ∧
    (∀ step, po.raisesAt = some step →
      (st.exit po).2.exn_logged =
        (if stepReached po st.proc_alive step then some step else none)) := by
  refine ⟨rfl, rfl, rfl, rfl, rfl, rfl, ?_, ?_⟩
  · intro hr
    rcases po with ⟨s1, s2, r⟩
    simp only at hr
    subst hr
    cases hpa : st.proc_alive <;> cases s1 <;> cases s2 <;>
      simp [WVState.exit, exitTermBlock, hpa]
  · intro step hstep
    rcases po with ⟨s1, s2, r⟩
    simp only at hstep
    subst hstep
    cases step <;> cases hpa : st.proc_alive <;> cases s1 <;> cases s2 <;>
      simp [WVState.exit, exitTermBlock, stepReached, hpa]

/-- Witness for C4 at a concrete input: on the fresh supervisor with a benign
process behaviour, the trace of the no-exception conjunct is as stated. -/
theorem C4_witness :
    (WVState.init.exit po0).2.stop_enqueued = WVState.init.proc_alive ∧
    (WVState.init.exit po0).2.exn_logged = none := by
  have h := (C4_exit_total_idempotent_escalation po0 po0 WVState.init).2.2.2.2.2.2.1 rfl
  exact ⟨h.1, h.2.2.2.2.2.2⟩

/-- C5: start() first clears the readiness event, then spawns the process,
then enqueues the start command, then blocks on the readiness event with the
5-second timeout; if the event is not set within the timeout it calls exit()
(leaving the supervisor reset) and raises TimeoutError; otherwise it returns
with the process spawned, the start command enqueued and the event set. -/
theorem C5_start_order_and_timeout_path (so : StartO) (st : WVState)
    (hp : st.proc_started = false) (hq : st.function_call_queue.maxsize = none) :
    (st.start so).2.2 =
      [StartAction.clearEvent, StartAction.spawnProcess, StartAction.enqueueStart,
       StartAction.waitReadiness QUEUE_TIMEOUT] ++
      (if so.loadsWithin then []
       else [StartAction.exitCalled, StartAction.raiseTimeoutError]) ∧
    (so.loadsWithin = false →
      (st.start so).1 = PyRes.exn ("TimeoutError") ∧
      (st.start so).2.1 = st.resetFields) ∧
    (so.loadsWithin = true →
      (st.start so).1 = PyRes.ok (st.start so).2.1 ∧
      (st.start so).2.1.proc_started = true ∧
      (st.start so).2.1.proc_alive = true ∧
      (st.start so).2.1.loaded_event = true ∧
      (st.start so).2.1.function_call_queue.items =
        st.function_call_queue.items ++ [Cmd.start st.debug]) := by
  have hacc : st.function_call_queue.canAccept = true := by
    simp [MpQueue.canAccept, hq]
  cases hl : so.loadsWithin <;>
    simp [WVState.start, hp, MpQueue.put, hacc, hl, MpQueue.push, WVState.exit_fst,
      WVState.resetFields]

/-- Witness for C5 at a concrete input: on the fresh supervisor with a
renderer that never signals readiness, start() raises TimeoutError after
calling exit(), which resets the supervisor. -/
theorem C5_witness :
    (WVState.init.start { loadsWithin := false, procO := po0 }).1 =
      PyRes.exn ("TimeoutError") ∧
    (WVState.init.start { loadsWithin := false, procO := po0 }).2.1 =
      WVState.init.resetFields :=
  (C5_start_order_and_timeout_path { loadsWithin := false, procO := po0 }
    WVState.init rfl rfl).2.1 rfl

/-! ## Claim theorems: event pump -/

/-- A fresh pump state over the fresh supervisor. -/
def ps0 : PumpState :=
  { wv := WVState.init, is_alive := true, dispatched := [], exitCalled := false }

/-- One pump step on an ordinary (non-sentinel) message: the message is
dispatched and the loop continues. -/
theorem showAsyncLoop_msg_cons (po : ProcO) (s : String) (t : List PumpEvt)
    (ps : PumpState) (hs : s ≠ "exit") :
    showAsyncLoop po (PumpEvt.msg s :: t) ps =
      showAsyncLoop po t { ps with dispatched := ps.dispatched ++ [s] } := by
  simp [showAsyncLoop, hs]

/-- C8: for any prefix of ordinary messages followed by the literal exit
sentinel, the pump dispatches exactly the prefix (so no handler lookup is ever
attempted for the sentinel literal), then calls the supervisor teardown,
clears its liveness flag and stops; and for any prefix of ordinary messages
followed by a KeyboardInterrupt, the pump returns in a controlled way with
exactly the prefix dispatched and no teardown triggered by the interrupt
itself. -/
theorem C8_pump_sentinel_teardown_and_interrupt (po : ProcO) :
    (∀ (pre : List String) (rest : List PumpEvt) (ps : PumpState),
      ("exit") ∉ pre →
      showAsyncLoop po (pre.map PumpEvt.msg ++ PumpEvt.msg ("exit") :: rest) ps =
        ({ wv := (ps.wv.exit po).1, is_alive := false,
           dispatched := ps.dispatched ++ pre, exitCalled := true },
         PumpExit.exitSentinel)) ∧
    (∀ (pre : List String) (rest : List PumpEvt) (ps : PumpState),
      ("exit") ∉ pre →
      showAsyncLoop po (pre.map PumpEvt.msg ++ PumpEvt.interrupt :: rest) ps =
        ({ ps with dispatched := ps.dispatched ++ pre }, PumpExit.interrupted)) := by
  constructor
  · intro pre
    induction pre with
    | nil => intro rest ps _; simp [showAsyncLoop]
    | cons s pre ih =>
      intro rest ps hmem
      have hs : s ≠ "exit" := fun h => hmem (h ▸ List.mem_cons_self s pre)
      have hpre : ("exit") ∉ pre := fun h => hmem (List.mem_cons_of_mem s h)
      rw [List.map_cons, List.cons_append, showAsyncLoop_msg_cons po s _ ps hs,
        ih rest _ hpre]
      simp
  · intro pre
    induction pre with
    | nil => intro rest ps _; simp [showAsyncLoop]
    | cons s pre ih =>
      intro rest ps hmem
      have hs : s ≠ "exit" := fun h => hmem (h ▸ List.mem_cons_self s pre)
      have hpre : ("exit") ∉ pre := fun h => hmem (List.mem_cons_of_mem s h)
      rw [List.map_cons, List.cons_append, showAsyncLoop_msg_cons po s _ ps hs,
        ih rest _ hpre]
      simp

/-- Witness for C8 at a concrete input: one ordinary message then the exit
sentinel tears the supervisor down and stops the pump with only the ordinary
message dispatched. -/
theorem C8_witness :
    showAsyncLoop po0 (["click"].map PumpEvt.msg ++ PumpEvt.msg ("exit") :: []) ps0 =
      ({ wv := (ps0.wv.exit po0).1, is_alive := false,
         dispatched := ps0.dispatched ++ ["click"], exitCalled := true },
       PumpExit.exitSentinel) :=
  (C8_pump_sentinel_teardown_and_interrupt po0).1 ["click"] [] ps0 (by simp)

/-! ## Claim theorems: error parsing -/

/-- The well-formed structured error string of the claim (strict JSON). -/
def wfErr : String :=
  "\x7b\"name\":\"TypeError\",\"line\":3,\"column\":5,\"message\":\"x is undefined\"\x7d"

/-- The malformed error string of the claim: Python repr-style single quotes
(not valid JSON) and no column field. -/
def malErr : String :=
  "\x7b" ++ sq ++ "name" ++ sq ++ ": " ++ sq ++ "TypeError" ++ sq ++ ", " ++
  sq ++ "line" ++ sq ++ ": 3, " ++ sq ++ "message" ++ sq ++ ": " ++
  sq ++ "x is undefined" ++ sq ++ "\x7d"

/-- C7: the error parser is total and two-tier.  The well-formed string
decodes by strict JSON parsing to exactly the four claimed fields; the
malformed string missing only the column field falls back to pattern
extraction and decodes with column defaulted to 0 and the other three fields
intact; and on every input on which JSON decoding fails, the fallback yields
a dict with exactly the four keys, defaulting each unmatched field
independently (name to Unknown, the numeric fields to 0, message to the raw
input); no input raises. -/
theorem C7_parse_js_error_two_tier :
    parse_js_error wfErr =
      PyVal.pyDict
        [("name", PyVal.pyStr ("TypeError")), ("line", PyVal.pyInt 3),
         ("column", PyVal.pyInt 5), ("message", PyVal.pyStr ("x is undefined"))] ∧
    parse_js_error malErr =
      PyVal.pyDict
        [("name", PyVal.pyStr ("TypeError")), ("line", PyVal.pyInt 3),
         ("column", PyVal.pyInt 0), ("message", PyVal.pyStr ("x is undefined"))] ∧
    (∀ s, jsonLoads s = Except.error JsonExn.jsonDecodeError →
      dictKeys (parse_js_error s) = ["name", "line", "column", "message"] ∧
      (searchQuoted ("name") s = none →
        dictGet (parse_js_error s) ("name") = some (PyVal.pyStr ("Unknown"))) ∧
      (searchNat ("line") s = none →
        dictGet (parse_js_error s) ("line") = some (PyVal.pyInt 0)) ∧
      (searchNat ("column") s = none →
        dictGet (parse_js_error s) ("column") = some (PyVal.pyInt 0)) ∧
      (searchQuoted ("message") s = none →
        dictGet (parse_js_error s) ("message") = some (PyVal.pyStr s))) := by
  refine ⟨rfl, rfl, ?_⟩
  intro s hjson
  simp only [parse_js_error, hjson]
  refine ⟨rfl, ?_, ?_, ?_, ?_⟩
  · intro h; rw [h]; rfl
  · intro h; rw [h]; rfl
  · intro h; rw [h]; rfl
  · intro h; rw [h]; rfl

/-- Witness for C7 at a concrete input: the malformed string does fail strict
JSON decoding, and the theorem's universal fallback clause applies to it. -/
theorem C7_witness :
    jsonLoads malErr = Except.error JsonExn.jsonDecodeError ∧
    dictKeys (parse_js_error malErr) = ["name", "line", "column", "message"] :=
  ⟨rfl, (C7_parse_js_error_two_tier.2.2 malErr rfl).1⟩

end LWC
